import Mathlib

/-!
Shallow embedding of the itinerary back end (`src/ollam.py`, `src/reddit_scraper.py`).

External effects (the model-inference service, the geocoding HTTP service and the
community-post search) are passed in as explicit oracle arguments; Python
exceptions become an explicit `PyError` carried in `Except`; Python `float`
values are modelled as rationals (the code never computes with coordinates, it
only passes them through).  Stateful objects (`Chatbot`) are modelled by
explicit state passing.
-/

/-- Python exception values, as far as this code base distinguishes them.
`str e` is the text Python interpolates with `f"{e}"`. -/
inductive PyError where
  | keyError (key : String)
  | valueError (msg : String)
  | runtimeError (msg : String)
  | indexError (msg : String)
  | requestException (msg : String)
  deriving DecidableEq, Repr

def PyError.str : PyError → String
  | .keyError k => "\x27" ++ k ++ "\x27"
  | .valueError m => m
  | .runtimeError m => m
  | .indexError m => m
  | .requestException m => m

/-- The Python type name of the exception: what a caller that dispatches on
exception type can observe. -/
def PyError.pyType : PyError → String
  | .keyError _ => "KeyError"
  | .valueError _ => "ValueError"
  | .runtimeError _ => "RuntimeError"
  | .indexError _ => "IndexError"
  | .requestException _ => "RequestException"

/-- The Python type name of the error of a failed computation, `none` on success. -/
def errTypeName {α : Type} : Except PyError α → Option String
  | .ok _ => none
  | .error e => some e.pyType

/-- JSON values (numbers as rationals, objects as association lists). -/
inductive Json where
  | null
  | bool (b : Bool)
  | num (q : Rat)
  | str (s : String)
  | arr (elems : List Json)
  | obj (fields : List (String × Json))

def Json.lookupField : List (String × Json) → String → Option Json
  | [], _ => none
  | (k, v) :: rest, key => if k = key then some v else Json.lookupField rest key

/-! ## Data model (`src/ollam.py` lines 14-32, `src/reddit_scraper.py` lines 15-17)

Pydantic models.  `longitude`/`latitude` have default `None`, hence `Option`. -/

structure Activity where
  location_name : String
  description : String
  longitude : Option Rat := none
  latitude : Option Rat := none
  deriving DecidableEq, Repr

structure Day where
  day : Int
  schedule : List Activity
  deriving DecidableEq, Repr

structure Itinerary where
  destination : String
  trip_duration : Int
  itinerary : List Day
  deriving DecidableEq, Repr

structure TripDetails where
  destination : String
  duration : Int
  interests : List String
  deriving DecidableEq, Repr

structure LocationSummary where
  location : String
  description : String
  deriving DecidableEq, Repr

/-! ## Pydantic-style validation of parsed JSON against the models above.

This models `Itinerary.model_validate_json` / `TripDetails.parse_raw` at the
level of already-parsed JSON values: a required `str` field must be a JSON
string, a required `int` field a JSON number with no fractional part, extra
object keys are ignored, and `description` carries `min_length=50`.
Pydantic has NO validator relating `trip_duration` to `len(itinerary)` and
none about the `day` numbers: the models declare only field shapes. -/

def validateStrField (fields : List (String × Json)) (name : String) : Except PyError String :=
  match Json.lookupField fields name with
  | some (.str s) => .ok s
  | some _ => .error (.valueError (name ++ ": Input should be a valid string"))
  | none => .error (.valueError (name ++ ": Field required"))

def validateIntField (fields : List (String × Json)) (name : String) : Except PyError Int :=
  match Json.lookupField fields name with
  | some (.num q) =>
      if q.den = 1 then .ok q.num
      else .error (.valueError (name ++ ": Input should be a valid integer"))
  | some _ => .error (.valueError (name ++ ": Input should be a valid integer"))
  | none => .error (.valueError (name ++ ": Field required"))

def validateOptNumField (fields : List (String × Json)) (name : String) : Except PyError (Option Rat) :=
  match Json.lookupField fields name with
  | none => .ok none
  | some (.num q) => .ok (some q)
  | some _ => .error (.valueError (name ++ ": Input should be a valid number"))

def validateActivity (j : Json) : Except PyError Activity :=
  match j with
  | .obj fields =>
    match validateStrField fields "location_name" with
    | .error e => .error e
    | .ok ln =>
      match validateStrField fields "description" with
      | .error e => .error e
      | .ok desc =>
        if 50 ≤ desc.length then
          match validateOptNumField fields "longitude" with
          | .error e => .error e
          | .ok lon =>
            match validateOptNumField fields "latitude" with
            | .error e => .error e
            | .ok lat => .ok { location_name := ln, description := desc, longitude := lon, latitude := lat }
        else .error (.valueError "description: String should have at least 50 characters")
  | _ => .error (.valueError "Input should be a valid dictionary")

def validateActivities : List Json → Except PyError (List Activity)
  | [] => .ok []
  | j :: rest =>
    match validateActivity j with
    | .error e => .error e
    | .ok a =>
      match validateActivities rest with
      | .error e => .error e
      | .ok l => .ok (a :: l)

def validateDay (j : Json) : Except PyError Day :=
  match j with
  | .obj fields =>
    match validateIntField fields "day" with
    | .error e => .error e
    | .ok d =>
      match Json.lookupField fields "schedule" with
      | some (.arr xs) =>
        (match validateActivities xs with
         | .error e => .error e
         | .ok acts => .ok { day := d, schedule := acts })
      | some _ => .error (.valueError "schedule: Input should be a valid list")
      | none => .error (.valueError "schedule: Field required")
  | _ => .error (.valueError "Input should be a valid dictionary")

def validateDays : List Json → Except PyError (List Day)
  | [] => .ok []
  | j :: rest =>
    match validateDay j with
    | .error e => .error e
    | .ok d =>
      match validateDays rest with
      | .error e => .error e
      | .ok l => .ok (d :: l)

def validateItinerary (j : Json) : Except PyError Itinerary :=
  match j with
  | .obj fields =>
    match validateStrField fields "destination" with
    | .error e => .error e
    | .ok dest =>
      match validateIntField fields "trip_duration" with
      | .error e => .error e
      | .ok dur =>
        match Json.lookupField fields "itinerary" with
        | some (.arr xs) =>
          (match validateDays xs with
           | .error e => .error e
           | .ok ds => .ok { destination := dest, trip_duration := dur, itinerary := ds })
        | some _ => .error (.valueError "itinerary: Input should be a valid list")
        | none => .error (.valueError "itinerary: Field required")
  | _ => .error (.valueError "Input should be a valid dictionary")

def validateStrList : List Json → Except PyError (List String)
  | [] => .ok []
  | .str s :: rest =>
    (match validateStrList rest with
     | .error e => .error e
     | .ok l => .ok (s :: l))
  | _ :: _ => .error (.valueError "interests: Input should be a valid string")

def validateTripDetails (j : Json) : Except PyError TripDetails :=
  match j with
  | .obj fields =>
    match validateStrField fields "destination" with
    | .error e => .error e
    | .ok dest =>
      match validateIntField fields "duration" with
      | .error e => .error e
      | .ok dur =>
        match Json.lookupField fields "interests" with
        | some (.arr xs) =>
          (match validateStrList xs with
           | .error e => .error e
           | .ok l => .ok { destination := dest, duration := dur, interests := l })
        | some _ => .error (.valueError "interests: Input should be a valid list")
        | none => .error (.valueError "interests: Field required")
  | _ => .error (.valueError "Input should be a valid dictionary")

/-! ## Geocoding (`src/ollam.py` lines 92-108)

The outcome of `requests.get` on the Geoapify URL for a given location text is
an oracle `GeoService`; URL assembly (base URL, API key) is invariant and
elided.  The JSON body is modelled post-parse. -/

structure Geometry where
  coordinates : List Rat
  deriving DecidableEq, Repr

structure Feature where
  geometry : Geometry
  deriving DecidableEq, Repr

structure GeoBody where
  features : List Feature
  deriving DecidableEq, Repr

/-- Outcome of the HTTP GET: a raised transport exception, or a response with a
status code and (for 200-responses) a parsed JSON body. -/
inductive HttpResult where
  | failure (msg : String)
  | success (status : Nat) (body : GeoBody)
  deriving DecidableEq, Repr

def GeoService : Type := String → HttpResult

structure Coordinates where
  longitude : Rat
  latitude : Rat
  deriving DecidableEq, Repr

/-- `geocode_location` (src/ollam.py lines 92-108).  The inner body raises
`ValueError` on zero matches and `RuntimeError` on a non-200 status; the
catch-all `except Exception` then rewraps EVERY failure — including those two
and any transport exception — as `RuntimeError("Error during geocoding: {e}")`. -/
def geocode_location (svc : GeoService) (location_name : String) : Except PyError Coordinates :=
  let inner : Except PyError Coordinates :=
    match svc location_name with
    | .failure msg => .error (.requestException msg)
    | .success status body =>
      if status = 200 then
        match body.features with
        | [] => .error (.valueError ("No geocoding results found for " ++ location_name))
        | f :: _ =>
          match f.geometry.coordinates.get? 0, f.geometry.coordinates.get? 1 with
          | some lon, some lat => .ok { longitude := lon, latitude := lat }
          | _, _ => .error (.indexError "list index out of range")
      else .error (.runtimeError ("Geoapify API error: " ++ toString status))
  match inner with
  | .ok c => .ok c
  | .error e => .error (.runtimeError ("Error during geocoding: " ++ e.str))

/-! ## Itinerary generation (`src/ollam.py` lines 110-259)

`generate_itinerary` renders a prompt, pulls the model, makes one structured
chat call, validates the content with `Itinerary.model_validate_json`, and then
geocodes `activity.location_name + " " + destination` for every activity of
every day, mutating the activities in place.  All of that sits in one `try`
whose handler rewraps any exception as
`RuntimeError("Error generating itinerary: {e}")`.

The model-side effects are an environment: the outcome of `ollama.pull` and the
(JSON-parsed) content of the single `ollama.chat` call.  The prompt text only
feeds the oracle and affects no verified property, so it is elided.  Besides
the Python return value we also record the trace of geocoding queries issued,
in order: the loop stops at the first geocoding failure. -/

structure GenEnv where
  pull : Except PyError Unit
  llm : Except PyError Json
  geo : GeoService

/-- The enrichment loop over the schedule of one day: returns the updated activities
(or the first error) together with the geocoding queries issued. -/
def enrichActivitiesT (geo : GeoService) (destination : String) :
    List Activity → Except PyError (List Activity) × List String
  | [] => (.ok [], [])
  | a :: rest =>
    let q := a.location_name ++ " " ++ destination
    match geocode_location geo q with
    | .error e => (.error e, [q])
    | .ok c =>
      let p := enrichActivitiesT geo destination rest
      (p.1.map (fun l => { a with longitude := some c.longitude, latitude := some c.latitude } :: l),
       q :: p.2)

/-- The outer enrichment loop over the days. -/
def enrichDaysT (geo : GeoService) (destination : String) :
    List Day → Except PyError (List Day) × List String
  | [] => (.ok [], [])
  | d :: rest =>
    let pa := enrichActivitiesT geo destination d.schedule
    match pa.1 with
    | .error e => (.error e, pa.2)
    | .ok acts =>
      let pd := enrichDaysT geo destination rest
      (pd.1.map (fun ds => { d with schedule := acts } :: ds), pa.2 ++ pd.2)

def genWrap (e : PyError) : PyError :=
  .runtimeError ("Error generating itinerary: " ++ e.str)

/-- `generate_itinerary` (src/ollam.py lines 110-259).  Returns the Python
result (Python returns `itinerary.model_dump()`, the same value in dict form)
paired with the trace of geocoding queries issued.  `duration`, `interests` and
`additional_info` only feed the prompt. -/
def generate_itinerary (env : GenEnv) (destination : String) (duration : Int)
    (interests : List String) (additional_info : String) :
    Except PyError Itinerary × List String :=
  match env.pull with
  | .error e => (.error (genWrap e), [])
  | .ok _ =>
    match env.llm with
    | .error e => (.error (genWrap e), [])
    | .ok j =>
      match validateItinerary j with
      | .error e => (.error (genWrap e), [])
      | .ok itin =>
        let p := enrichDaysT env.geo destination itin.itinerary
        match p.1 with
        | .error e => (.error (genWrap e), p.2)
        | .ok ds => (.ok { itin with itinerary := ds }, p.2)

/-! ## Conversation (`src/ollam.py` lines 34-89) -/

structure Message where
  role : String
  content : String
  deriving DecidableEq, Repr

structure Chatbot where
  model_name : String
  history : List Message
  deriving DecidableEq, Repr

def Chatbot.mk0 : Chatbot :=
  { model_name := "technobyte/c4ai-command-r7b-12-2024:Q5_K_M", history := [] }

def Chatbot.add_message (bot : Chatbot) (role content : String) : Chatbot :=
  { bot with history := bot.history ++ [{ role := role, content := content }] }

/-- `Chatbot.chat` (src/ollam.py lines 42-54).  The oracle is the outcome of
`ollama.chat` as a function of the message list it is sent (here: the whole
history including the just-appended user turn).  On failure the method raises
`RuntimeError("Error in chatbot interaction: {e}")` and the user turn stays. -/
def Chatbot.chat (llm : List Message → Except PyError String) (bot : Chatbot)
    (user_message : String) : Except PyError String × Chatbot :=
  let bot1 := bot.add_message "user" user_message
  match llm bot1.history with
  | .ok response_message => (.ok response_message, bot1.add_message "assistant" response_message)
  | .error e => (.error (.runtimeError ("Error in chatbot interaction: " ++ e.str)), bot1)

/-! ## Python `str.format` (used by `extract_trip_details`, src/ollam.py line 76)

A faithful model of the subset of `str.format` semantics this template can
exercise: `\x7b\x7b`/`\x7d\x7d` are brace escapes, `\x7bname\x7d` (optionally
with a `!conversion` and/or a `:format-spec`, the spec skipped up to its
matching close brace) substitutes the keyword argument `name`, a missing
keyword raises `KeyError(name)`, a lone close brace or an unterminated field
raises `ValueError`.  Positional/auto-numbered fields and attribute/index paths
do not occur in this code base and are not modelled. -/

/-- Scanner state of the one-pass `str.format` model. -/
inductive FmtMode where
  | literal
  | sawLbrace
  | sawRbrace
  | fieldName (name : String)
  | conversion (name : String)
  | afterConversion (name : String)
  | spec (name : String) (depth : Nat)

def lbraceChar : Char := Char.ofNat 123

def rbraceChar : Char := Char.ofNat 125

/-- One left-to-right pass of `str.format`, consuming one character per step.
On completing a replacement field the keyword is looked up; a missing keyword
raises `KeyError` exactly as Python does before it would process the spec. -/
def pyFormatScan (kvs : List (String × String)) :
    List Char → FmtMode → String → Except PyError String
  | [], .literal, acc => .ok acc
  | [], .sawLbrace, _ => .error (.valueError "Single \x27\x7b\x27 encountered in format string")
  | [], .sawRbrace, _ => .error (.valueError "Single \x27\x7d\x27 encountered in format string")
  | [], .fieldName _, _ => .error (.valueError "expected \x27\x7d\x27 before end of string")
  | [], .conversion _, _ => .error (.valueError "end of string while looking for conversion specifier")
  | [], .afterConversion _, _ => .error (.valueError "expected \x27\x7d\x27 before end of string")
  | [], .spec _ _, _ => .error (.valueError "expected \x27\x7d\x27 before end of string")
  | c :: rest, .literal, acc =>
    if c = lbraceChar then pyFormatScan kvs rest .sawLbrace acc
    else if c = rbraceChar then pyFormatScan kvs rest .sawRbrace acc
    else pyFormatScan kvs rest .literal (acc.push c)
  | c :: rest, .sawLbrace, acc =>
    if c = lbraceChar then pyFormatScan kvs rest .literal (acc.push lbraceChar)
    else if c = rbraceChar then
      match List.lookup "" kvs with
      | some v => pyFormatScan kvs rest .literal (acc ++ v)
      | none => .error (.keyError "")
    else if c = ':' then pyFormatScan kvs rest (.spec "" 0) acc
    else if c = '!' then pyFormatScan kvs rest (.conversion "") acc
    else pyFormatScan kvs rest (.fieldName (String.singleton c)) acc
  | c :: rest, .sawRbrace, acc =>
    if c = rbraceChar then pyFormatScan kvs rest .literal (acc.push rbraceChar)
    else .error (.valueError "Single \x27\x7d\x27 encountered in format string")
  | c :: rest, .fieldName name, acc =>
    if c = rbraceChar then
      match List.lookup name kvs with
      | some v => pyFormatScan kvs rest .literal (acc ++ v)
      | none => .error (.keyError name)
    else if c = ':' then pyFormatScan kvs rest (.spec name 0) acc
    else if c = '!' then pyFormatScan kvs rest (.conversion name) acc
    else pyFormatScan kvs rest (.fieldName (name.push c)) acc
  | _ :: rest, .conversion name, acc => pyFormatScan kvs rest (.afterConversion name) acc
  | c :: rest, .afterConversion name, acc =>
    if c = rbraceChar then
      match List.lookup name kvs with
      | some v => pyFormatScan kvs rest .literal (acc ++ v)
      | none => .error (.keyError name)
    else if c = ':' then pyFormatScan kvs rest (.spec name 0) acc
    else .error (.valueError "expected \x27:\x27 after conversion specifier")
  | c :: rest, .spec name depth, acc =>
    if c = rbraceChar then
      match depth with
      | 0 =>
        (match List.lookup name kvs with
         | some v => pyFormatScan kvs rest .literal (acc ++ v)
         | none => .error (.keyError name))
      | d + 1 => pyFormatScan kvs rest (.spec name d) acc
    else if c = lbraceChar then pyFormatScan kvs rest (.spec name (depth + 1)) acc
    else pyFormatScan kvs rest (.spec name depth) acc

/-- `template.format(**kvs)`. -/
def pyFormat (kvs : List (String × String)) (template : String) : Except PyError String :=
  pyFormatScan kvs template.data .literal ""

/-- The triple-quoted extraction prompt template of `extract_trip_details`
(src/ollam.py lines 58-73), byte for byte.  Note that the JSON example's braces
are NOT doubled, so they are replacement-field syntax for `str.format`. -/
def extractPromptTemplate : String :=
  "\n        Based on the following conversation, identify and return the trip details:\n" ++
  "        - Destination (a place or city)\n" ++
  "        - Duration (in days, integer value)\n" ++
  "        - Interests (a list of topics or categories of interest, e.g. [\x27food\x27, \x27history\x27, \x27technology\x27])\n" ++
  "        \n" ++
  "        The conversation:\n" ++
  "        \x7bconversation\x7d\n" ++
  "\n" ++
  "        Provide the trip details in the following JSON format:\n" ++
  "        \x7b\n" ++
  "            \"destination\": \"<destination>\",\n" ++
  "            \"duration\": <duration>,\n" ++
  "            \"interests\": [\"<interest1>\", \"<interest2>\", ...]\n" ++
  "        \x7d\n" ++
  "        "

/-- The replacement-field name Python reads after the JSON example's open brace
(everything up to the `:` that starts a format spec). -/
def badFieldName : String := "\n            \"destination\""

/-- `Chatbot.extract_trip_details` (src/ollam.py lines 56-89).  The oracle is
the JSON-parsed content of the one-shot `ollama.chat` call as a function of the
prompt it is sent; `TripDetails.parse_raw` of the content is modelled by
`validateTripDetails`.  The `prompt.format(conversation=...)` call happens
BEFORE the `try`, so a formatting error propagates unwrapped; errors inside the
`try` are rewrapped as `RuntimeError("Error extracting trip details: {e}")`.
The conversation text joins the `content` of every history turn, regardless of
role.  The history is never written to. -/
def Chatbot.extract_trip_details (llm : String → Except PyError Json) (bot : Chatbot) :
    Except PyError TripDetails × Chatbot :=
  match pyFormat
      [("conversation", String.intercalate "\n" (bot.history.map (fun m => m.content)))]
      extractPromptTemplate with
  | .error e => (.error e, bot)
  | .ok formatted_prompt =>
    match llm formatted_prompt with
    | .error e => (.error (.runtimeError ("Error extracting trip details: " ++ e.str)), bot)
    | .ok j =>
      match validateTripDetails j with
      | .error e => (.error (.runtimeError ("Error extracting trip details: " ++ e.str)), bot)
      | .ok td => (.ok td, bot)

/-! ## Community-post summarization (`src/reddit_scraper.py` lines 19-93)

The Reddit search is an oracle from the query string to the posts it returns;
the summarizing model call is an oracle from the prompt to the raw content, and
`json.loads` an oracle from a raw string to its parsed JSON value (or a raised
error). -/

structure RedditPost where
  selftext : String
  title : String
  deriving DecidableEq, Repr

/-- `extract_text_from_reddit_post` (src/reddit_scraper.py lines 47-50):
`post.selftext if post.selftext else post.title` — the empty string is falsy. -/
def extract_text_from_reddit_post (post : RedditPost) : String :=
  if post.selftext ≠ "" then post.selftext else post.title

/-- `construct_query` (src/reddit_scraper.py lines 36-39). -/
def construct_query (location : String) (interests : List String) : String :=
  "itinerary " ++ location ++ " " ++ String.intercalate " " interests

/-- The f-string prompt of `summarize_text_with_llm`
(src/reddit_scraper.py lines 55-59), byte for byte. -/
def summaryPrompt (text : String) : String :=
  "\n            Extract and summarize locations and key points from the text below. Provide the output as a list of objects with \x27location\x27 and \x27description\x27 fields:\n\n            " ++
  text ++ "\n        "

/-- `summarize_text_with_llm` (src/reddit_scraper.py lines 52-69): one model
call; any failure is rewrapped as `RuntimeError("Error summarizing text: {e}")`. -/
def summarize_text_with_llm (llm : String → Except PyError String) (text : String) :
    Except PyError String :=
  match llm (summaryPrompt text) with
  | .ok content => .ok content
  | .error e => .error (.runtimeError ("Error summarizing text: " ++ e.str))

/-- `LocationSummary(**summary_dict)`: the JSON value must be an object (else
`**` raises), `location` and `description` must be strings; extra keys are
ignored by the default pydantic config. -/
def locationSummaryOfJson : Json → Except PyError LocationSummary
  | .obj fields =>
    (match validateStrField fields "location" with
     | .error e => .error e
     | .ok loc =>
       match validateStrField fields "description" with
       | .error e => .error e
       | .ok desc => .ok { location := loc, description := desc })
  | _ => .error (.valueError "argument after ** must be a mapping")

/-- The per-post pipeline inside the loop of `process_search_and_summarize`:
summarize, `json.loads`, construct the `LocationSummary`. -/
def summarizePost (llm : String → Except PyError String) (jparse : String → Except PyError Json)
    (text : String) : Except PyError LocationSummary :=
  match summarize_text_with_llm llm text with
  | .error e => .error e
  | .ok summary_json =>
    match jparse summary_json with
    | .error e => .error e
    | .ok summary_dict => locationSummaryOfJson summary_dict

/-- `process_search_and_summarize` (src/reddit_scraper.py lines 71-93): for each
post of the search result, in order, extract its text; if the text is non-empty
run the per-post pipeline inside a `try` whose handler only logs — a failing
post is skipped and the loop continues; append each success to `all_summaries`;
finally join the bullet lines with newlines. -/
def process_search_and_summarize (search : String → List RedditPost)
    (llm : String → Except PyError String) (jparse : String → Except PyError Json)
    (location : String) (interests : List String) : String :=
  let query := construct_query location interests
  let posts := search query
  let all_summaries := posts.foldl (fun acc post =>
    let text := extract_text_from_reddit_post post
    if text ≠ "" then
      match summarizePost llm jparse text with
      | .ok summary => acc ++ [summary]
      | .error _ => acc
    else acc) []
  String.intercalate "\n" (all_summaries.map (fun item => "- " ++ item.location ++ ": " ++ item.description))

/-- The outcome of the loop body for one post, as an `Option`: `some` exactly
when the post contributes a summary. -/
def perPostSummary (llm : String → Except PyError String) (jparse : String → Except PyError Json)
    (post : RedditPost) : Option LocationSummary :=
  let text := extract_text_from_reddit_post post
  if text ≠ "" then
    match summarizePost llm jparse text with
    | .ok summary => some summary
    | .error _ => none
  else none

/-! ## Helper lemmas about the enrichment loops -/

theorem enrichActivitiesT_ok_mem (geo : GeoService) (dest : String) :
    ∀ (l l' : List Activity), (enrichActivitiesT geo dest l).1 = .ok l' →
      ∀ a ∈ l', ∃ c, geocode_location geo (a.location_name ++ " " ++ dest) = .ok c ∧
        a.longitude = some c.longitude ∧ a.latitude = some c.latitude := by
  intro l
  induction l with
  | nil =>
    intro l' h a ha
    simp [enrichActivitiesT] at h
    subst h
    simp at ha
  | cons a0 rest ih =>
    intro l' h a ha
    simp only [enrichActivitiesT] at h
    cases hg : geocode_location geo (a0.location_name ++ " " ++ dest) with
    | error e => rw [hg] at h; simp at h
    | ok c =>
      rw [hg] at h
      cases hp : (enrichActivitiesT geo dest rest).1 with
      | error e => rw [hp] at h; simp [Except.map] at h
      | ok l0 =>
        rw [hp] at h
        simp [Except.map] at h
        subst h
        rw [List.mem_cons] at ha
        rcases ha with ha | ha
        · subst ha
          exact ⟨c, hg, rfl, rfl⟩
        · exact ih l0 hp a ha

theorem enrichActivitiesT_ok_descriptions (geo : GeoService) (dest : String) :
    ∀ (l l' : List Activity), (enrichActivitiesT geo dest l).1 = .ok l' →
      l'.map (fun a => a.description) = l.map (fun a => a.description) := by
  intro l
  induction l with
  | nil =>
    intro l' h
    simp [enrichActivitiesT] at h
    subst h
    simp
  | cons a0 rest ih =>
    intro l' h
    simp only [enrichActivitiesT] at h
    cases hg : geocode_location geo (a0.location_name ++ " " ++ dest) with
    | error e => rw [hg] at h; simp at h
    | ok c =>
      rw [hg] at h
      cases hp : (enrichActivitiesT geo dest rest).1 with
      | error e => rw [hp] at h; simp [Except.map] at h
      | ok l0 =>
        rw [hp] at h
        simp [Except.map] at h
        subst h
        simp [ih l0 hp]

theorem enrichActivitiesT_error_of_mem (geo : GeoService) (dest : String) :
    ∀ (l : List Activity) (a : Activity) (e : PyError), a ∈ l →
      geocode_location geo (a.location_name ++ " " ++ dest) = .error e →
      ∃ e', (enrichActivitiesT geo dest l).1 = .error e' := by
  intro l
  induction l with
  | nil => intro a e ha _; simp at ha
  | cons a0 rest ih =>
    intro a e ha hg
    simp only [enrichActivitiesT]
    cases hg0 : geocode_location geo (a0.location_name ++ " " ++ dest) with
    | error e0 => exact ⟨e0, by simp⟩
    | ok c =>
      rw [List.mem_cons] at ha
      rcases ha with ha | ha
      · subst ha; rw [hg0] at hg; exact absurd hg (by simp)
      · obtain ⟨e', he'⟩ := ih a e ha hg
        refine ⟨e', ?_⟩
        simp [he', Except.map]

theorem enrichActivitiesT_desc_mem (geo : GeoService) (dest : String)
    (l l' : List Activity) (h : (enrichActivitiesT geo dest l).1 = .ok l')
    (a' : Activity) (ha : a' ∈ l') : ∃ a0 ∈ l, a'.description = a0.description := by
  have hm := enrichActivitiesT_ok_descriptions geo dest l l' h
  have : a'.description ∈ l'.map (fun a => a.description) := List.mem_map_of_mem _ ha
  rw [hm] at this
  obtain ⟨a0, ha0, he⟩ := List.mem_map.mp this
  exact ⟨a0, ha0, he.symm⟩

theorem enrichDaysT_ok_mem (geo : GeoService) (dest : String) :
    ∀ (ds ds' : List Day), (enrichDaysT geo dest ds).1 = .ok ds' →
      ∀ d' ∈ ds', ∀ a ∈ d'.schedule,
        ∃ c, geocode_location geo (a.location_name ++ " " ++ dest) = .ok c ∧
          a.longitude = some c.longitude ∧ a.latitude = some c.latitude := by
  intro ds
  induction ds with
  | nil =>
    intro ds' h d' hd a ha
    simp [enrichDaysT] at h
    subst h
    simp at hd
  | cons d0 rest ih =>
    intro ds' h d' hd a ha
    simp only [enrichDaysT] at h
    cases hpa : (enrichActivitiesT geo dest d0.schedule).1 with
    | error e => rw [hpa] at h; simp at h
    | ok acts =>
      rw [hpa] at h
      cases hpd : (enrichDaysT geo dest rest).1 with
      | error e => rw [hpd] at h; simp [Except.map] at h
      | ok ds0 =>
        rw [hpd] at h
        simp [Except.map] at h
        subst h
        rw [List.mem_cons] at hd
        rcases hd with hd | hd
        · subst hd
          exact enrichActivitiesT_ok_mem geo dest d0.schedule acts hpa a ha
        · exact ih ds0 hpd d' hd a ha

theorem enrichDaysT_preserves_desc_min (geo : GeoService) (dest : String) :
    ∀ (ds ds' : List Day), (enrichDaysT geo dest ds).1 = .ok ds' →
      (∀ d0 ∈ ds, ∀ a0 ∈ d0.schedule, 50 ≤ a0.description.length) →
      ∀ d' ∈ ds', ∀ a ∈ d'.schedule, 50 ≤ a.description.length := by
  intro ds
  induction ds with
  | nil =>
    intro ds' h _ d' hd a ha
    simp [enrichDaysT] at h
    subst h
    simp at hd
  | cons d0 rest ih =>
    intro ds' h hmin d' hd a ha
    simp only [enrichDaysT] at h
    cases hpa : (enrichActivitiesT geo dest d0.schedule).1 with
    | error e => rw [hpa] at h; simp at h
    | ok acts =>
      rw [hpa] at h
      cases hpd : (enrichDaysT geo dest rest).1 with
      | error e => rw [hpd] at h; simp [Except.map] at h
      | ok ds0 =>
        rw [hpd] at h
        simp [Except.map] at h
        subst h
        rw [List.mem_cons] at hd
        rcases hd with hd | hd
        · subst hd
          obtain ⟨a0, ha0, he⟩ := enrichActivitiesT_desc_mem geo dest d0.schedule acts hpa a ha
          rw [he]
          exact hmin d0 (List.mem_cons_self d0 rest) a0 ha0
        · exact ih ds0 hpd (fun d hdm a0 ha0 => hmin d (List.mem_cons_of_mem d0 hdm) a0 ha0) d' hd a ha

theorem enrichDaysT_error_of_mem (geo : GeoService) (dest : String) :
    ∀ (ds : List Day) (d : Day) (a : Activity) (e : PyError), d ∈ ds → a ∈ d.schedule →
      geocode_location geo (a.location_name ++ " " ++ dest) = .error e →
      ∃ e', (enrichDaysT geo dest ds).1 = .error e' := by
  intro ds
  induction ds with
  | nil => intro d a e hd _ _; simp at hd
  | cons d0 rest ih =>
    intro d a e hd ha hg
    simp only [enrichDaysT]
    cases hpa : (enrichActivitiesT geo dest d0.schedule).1 with
    | error e0 => exact ⟨e0, by simp⟩
    | ok acts =>
      rw [List.mem_cons] at hd
      rcases hd with hd | hd
      · subst hd
        obtain ⟨e', he'⟩ := enrichActivitiesT_error_of_mem geo dest d.schedule a e ha hg
        rw [hpa] at he'
        exact absurd he' (by simp)
      · obtain ⟨e', he'⟩ := ih d a e hd ha hg
        refine ⟨e', ?_⟩
        simp [he', Except.map]

/-! ## Helper lemmas about validation -/
theorem validateActivity_desc (j : Json) (a : Activity) (h : validateActivity j = .ok a) :
    50 ≤ a.description.length := by
  unfold validateActivity at h
  repeat' split at h
  all_goals simp_all
  subst h
  assumption

theorem validateActivities_desc : ∀ (xs : List Json) (l : List Activity),
    validateActivities xs = .ok l → ∀ a ∈ l, 50 ≤ a.description.length := by
  intro xs
  induction xs with
  | nil => intro l h a ha; simp [validateActivities] at h; subst h; simp at ha
  | cons j rest ih =>
    intro l h a ha
    simp only [validateActivities] at h
    cases h1 : validateActivity j with
    | error e => rw [h1] at h; simp at h
    | ok a0 =>
      rw [h1] at h
      simp only [] at h
      cases h2 : validateActivities rest with
      | error e => rw [h2] at h; simp at h
      | ok l0 =>
        rw [h2] at h
        simp at h
        subst h
        rw [List.mem_cons] at ha
        rcases ha with ha | ha
        · subst ha; exact validateActivity_desc j a h1
        · exact ih l0 h2 a ha

theorem validateDay_desc (j : Json) (d : Day) (h : validateDay j = .ok d) :
    ∀ a ∈ d.schedule, 50 ≤ a.description.length := by
  intro a ha
  unfold validateDay at h
  repeat' split at h
  all_goals simp_all
  subst h
  exact validateActivities_desc _ _ (by assumption) a (by simpa using ha)

theorem validateDays_desc : ∀ (xs : List Json) (ds : List Day),
    validateDays xs = .ok ds → ∀ d ∈ ds, ∀ a ∈ d.schedule, 50 ≤ a.description.length := by
  intro xs
  induction xs with
  | nil => intro ds h d hd a ha; simp [validateDays] at h; subst h; simp at hd
  | cons j rest ih =>
    intro ds h d hd a ha
    simp only [validateDays] at h
    cases h1 : validateDay j with
    | error e => rw [h1] at h; simp at h
    | ok d0 =>
      rw [h1] at h
      simp only [] at h
      cases h2 : validateDays rest with
      | error e => rw [h2] at h; simp at h
      | ok ds0 =>
        rw [h2] at h
        simp at h
        subst h
        rw [List.mem_cons] at hd
        rcases hd with hd | hd
        · subst hd; exact validateDay_desc j d h1 a ha
        · exact ih ds0 h2 d hd a ha

theorem validateItinerary_desc (j : Json) (it : Itinerary) (h : validateItinerary j = .ok it) :
    ∀ d ∈ it.itinerary, ∀ a ∈ d.schedule, 50 ≤ a.description.length := by
  intro d hd a ha
  unfold validateItinerary at h
  repeat' split at h
  all_goals simp_all
  subst h
  exact validateDays_desc _ _ (by assumption) d (by simpa using hd) a ha

/-! ## Concrete stub environments used to evaluate the code at specific inputs -/

/-- A geocoding service that always answers 200 with one feature at (135, 35). -/
def stubGeo : GeoService :=
  fun _ => .success 200 { features := [{ geometry := { coordinates := [135, 35] } }] }

/-- A geocoding service that always answers 200 with an empty feature list. -/
def emptyFeaturesGeo : GeoService := fun _ => .success 200 { features := [] }

/-- A geocoding service that always answers 404. -/
def status404Geo : GeoService := fun _ => .success 404 { features := [] }

/-- A geocoding service whose transport always fails. -/
def transportFailGeo : GeoService := fun _ => .failure "connection refused"

def longDesc : String :=
  "Start your day with a visit to the famous Tsukiji Outer Market and try fresh sushi for breakfast."

/-- A structured-generation response that is valid against the pydantic models
but contains exactly ONE day. -/
def validOneDayJson : Json :=
  .obj [("destination", .str "Japan"), ("trip_duration", .num 2),
        ("itinerary", .arr [.obj [("day", .num 1),
          ("schedule", .arr [.obj [("location_name", .str "Tsukiji Outer Market"),
                                   ("description", .str longDesc)]])]])]

/-- Environment in which the model returns `validOneDayJson` and geocoding
always succeeds. -/
def oneDayEnv : GenEnv := { pull := .ok (), llm := .ok validOneDayJson, geo := stubGeo }

/-- Environment in which the model returns `validOneDayJson` and geocoding
always finds zero matches. -/
def geoFailEnv : GenEnv := { pull := .ok (), llm := .ok validOneDayJson, geo := emptyFeaturesGeo }

def oneDayActivity : Activity :=
  { location_name := "Tsukiji Outer Market", description := longDesc,
    longitude := some 135, latitude := some 35 }

def oneDayDay : Day := { day := 1, schedule := [oneDayActivity] }

/-- The itinerary `generate_itinerary` returns in `oneDayEnv` for duration 2. -/
def oneDayEnriched : Itinerary :=
  { destination := "Japan", trip_duration := 2, itinerary := [oneDayDay] }

def oneDayParsedActivity : Activity :=
  { location_name := "Tsukiji Outer Market", description := longDesc,
    longitude := none, latitude := none }

def oneDayParsedDay : Day := { day := 1, schedule := [oneDayParsedActivity] }

/-- The value `validOneDayJson` validates to, before enrichment. -/
def oneDayParsed : Itinerary :=
  { destination := "Japan", trip_duration := 2, itinerary := [oneDayParsedDay] }

/-- A structured-generation response whose single description is shorter than
50 characters. -/
def shortDescJson : Json :=
  .obj [("destination", .str "Japan"), ("trip_duration", .num 1),
        ("itinerary", .arr [.obj [("day", .num 1),
          ("schedule", .arr [.obj [("location_name", .str "Tsukiji Outer Market"),
                                   ("description", .str "Too short.")]])]])]

def shortDescEnv : GenEnv := { pull := .ok (), llm := .ok shortDescJson, geo := stubGeo }

/-- A model-call oracle that always fails. -/
def chatFailLlm : List Message → Except PyError String :=
  fun _ => .error (.valueError "model offline")

/-- A model-call oracle that always answers. -/
def chatOkLlm : List Message → Except PyError String :=
  fun ms => .ok ("Sounds great, that makes " ++ toString ms.length ++ " messages so far.")

/-- The chatbot state after three `chat` calls on a fresh `Chatbot`. -/
def bot3 : Chatbot :=
  (Chatbot.chat chatOkLlm
    ((Chatbot.chat chatOkLlm
      ((Chatbot.chat chatOkLlm Chatbot.mk0 "I want to visit Japan").2)
      "It should be a two day trip").2)
    "I love food and history").2

/-- Five stub posts: numbers 2 and 4 have neither body nor title. -/
def stubPost1 : RedditPost := { selftext := "Visited Tsukiji market", title := "Japan trip" }

def stubPost2 : RedditPost := { selftext := "", title := "" }

def stubPost3 : RedditPost := { selftext := "", title := "Kyoto temples guide" }

def stubPost4 : RedditPost := { selftext := "", title := "" }

def stubPost5 : RedditPost := { selftext := "Osaka street food crawl", title := "" }

def stubSearch5 : String → List RedditPost :=
  fun _ => [stubPost1, stubPost2, stubPost3, stubPost4, stubPost5]

/-- A summarizing model that echoes its prompt (so the parse oracle can
distinguish posts). -/
def stubSumLlm : String → Except PyError String := fun prompt => .ok prompt

/-- A summarizing model that always fails. -/
def failSumLlm : String → Except PyError String := fun _ => .error (.valueError "connection error")

/-- `json.loads` outcome for each of the three non-empty stub posts. -/
def stubJparse : String → Except PyError Json := fun s =>
  if s = summaryPrompt "Visited Tsukiji market" then
    .ok (.obj [("location", .str "Tsukiji"), ("description", .str "fish market")])
  else if s = summaryPrompt "Kyoto temples guide" then
    .ok (.obj [("location", .str "Kyoto"), ("description", .str "temples")])
  else if s = summaryPrompt "Osaka street food crawl" then
    .ok (.obj [("location", .str "Osaka"), ("description", .str "street food")])
  else .error (.valueError "Expecting value: line 1 column 1 (char 0)")

/-- `true` exactly on a success. -/
def isOkResult {α : Type} : Except PyError α → Bool
  | .ok _ => true
  | .error _ => false

/-- The summarization loop is the filterMap of the per-post outcome. -/
theorem processPosts_eq (llm : String → Except PyError String)
    (jparse : String → Except PyError Json) :
    ∀ (posts : List RedditPost) (acc : List LocationSummary),
      posts.foldl (fun acc post =>
        let text := extract_text_from_reddit_post post
        if text ≠ "" then
          match summarizePost llm jparse text with
          | .ok summary => acc ++ [summary]
          | .error _ => acc
        else acc) acc = acc ++ posts.filterMap (perPostSummary llm jparse) := by
  intro posts
  induction posts with
  | nil => intro acc; simp
  | cons p rest ih =>
    intro acc
    rw [List.foldl_cons, ih]
    by_cases ht : extract_text_from_reddit_post p = ""
    · simp [perPostSummary, ht, List.filterMap_cons]
    · cases hs : summarizePost llm jparse (extract_text_from_reddit_post p) with
      | ok s => simp [perPostSummary, ht, hs, List.filterMap_cons]
      | error e => simp [perPostSummary, ht, hs, List.filterMap_cons]

/-! ## Claim theorems -/

/-- Claim C1: the claim says that a structured-generation response whose number
of days differs from the requested duration makes `generate_itinerary` fail
with `SchemaValidationError` and perform no geocoding calls.  The code does the
opposite: pydantic validation has no day-count check, so the one-day response
for a requested duration of 2 validates, the call SUCCEEDS, and one geocoding
lookup is performed. -/
theorem C1_one_day_json_accepted_and_geocoded :
    (generate_itinerary oneDayEnv "Japan" 2 ["food", "history"] "").1 = .ok oneDayEnriched ∧
    (generate_itinerary oneDayEnv "Japan" 2 ["food", "history"] "").2 =
      ["Tsukiji Outer Market Japan"] :=
  ⟨rfl, rfl⟩

/-- Claim C2: the claim says every successful `generate_itinerary` call returns
an itinerary with exactly `duration` days numbered `1..duration`.  The code has
no such guarantee: with a schema-valid one-day model response and duration 2,
the call succeeds and returns an itinerary of length 1. -/
theorem C2_success_returns_wrong_day_count :
    isOkResult (generate_itinerary oneDayEnv "Japan" 2 ["food", "history"] "").1 = true ∧
    (generate_itinerary oneDayEnv "Japan" 2 ["food", "history"] "").1.map
      (fun it => (it.itinerary.length, it.itinerary.map (fun d => d.day))) =
      .ok (1, [1]) :=
  ⟨rfl, rfl⟩

set_option maxRecDepth 80000 in
/-- Claim C3: the claim says `extract_trip_details` issues one generation
request built from all accumulated turn contents.  In fact the
`prompt.format(conversation=...)` call trips over the undoubled braces of the
JSON example in the template and raises
a `KeyError` carrying `badFieldName` before any request is made: after
three `chat` calls (six history turns) the extraction returns that `KeyError`
for EVERY model oracle, i.e. no generation request is ever issued. -/
theorem C3_extract_raises_keyerror_before_any_request :
    (∀ llm : String → Except PyError Json,
      Chatbot.extract_trip_details llm bot3 = (.error (.keyError badFieldName), bot3)) ∧
    bot3.history.length = 6 :=
  ⟨fun _ => rfl, rfl⟩

/-- Claim C4 counterexample: the claim says zero-match and non-success/transport
failures of `geocode_location` are distinct typed failures a caller can tell
apart.  In the code the catch-all handler rewraps both as `RuntimeError`, so at
these concrete inputs both failures carry the SAME Python exception type. -/
theorem C4_failures_share_exception_type :
    geocode_location emptyFeaturesGeo "Louvre" =
      .error (.runtimeError "Error during geocoding: No geocoding results found for Louvre") ∧
    geocode_location status404Geo "Louvre" =
      .error (.runtimeError "Error during geocoding: Geoapify API error: 404") ∧
    errTypeName (geocode_location emptyFeaturesGeo "Louvre") =
      errTypeName (geocode_location status404Geo "Louvre") :=
  ⟨rfl, rfl, rfl⟩

/-- Claim C4 (amended): `geocode_location` does fail on zero matches and on a
non-success status or transport failure, but all three failures reach the
caller wrapped as the same `RuntimeError` type; they differ only in message
text ("No geocoding results found for ..." vs "Geoapify API error: ..." vs the
transport message). -/
theorem C4_geocode_failures_wrapped_runtimeError :
    (∀ (svc : GeoService) (name : String),
      svc name = .success 200 { features := [] } →
      geocode_location svc name =
        .error (.runtimeError ("Error during geocoding: No geocoding results found for " ++ name))) ∧
    (∀ (svc : GeoService) (name : String) (status : Nat) (body : GeoBody),
      svc name = .success status body → status ≠ 200 →
      geocode_location svc name =
        .error (.runtimeError ("Error during geocoding: Geoapify API error: " ++ toString status))) ∧
    (∀ (svc : GeoService) (name msg : String),
      svc name = .failure msg →
      geocode_location svc name = .error (.runtimeError ("Error during geocoding: " ++ msg))) := by
  refine ⟨?_, ?_, ?_⟩
  · intro svc name h
    simp [geocode_location, h, PyError.str]
    rw [← String.append_assoc]
    rfl
  · intro svc name status body h hs
    simp [geocode_location, h, hs, PyError.str]
    rw [← String.append_assoc]
    rfl
  · intro svc name msg h
    simp [geocode_location, h, PyError.str]

/-- Witness for the amended Claim C4 theorem at concrete services. -/
theorem C4_geocode_failures_wrapped_runtimeError_witness :
    geocode_location emptyFeaturesGeo "Tokyo Tower" =
      .error (.runtimeError ("Error during geocoding: No geocoding results found for " ++ "Tokyo Tower")) ∧
    geocode_location status404Geo "Tokyo Tower" =
      .error (.runtimeError ("Error during geocoding: Geoapify API error: " ++ toString (404 : Nat))) ∧
    geocode_location transportFailGeo "Tokyo Tower" =
      .error (.runtimeError ("Error during geocoding: " ++ "connection refused")) :=
  ⟨C4_geocode_failures_wrapped_runtimeError.1 emptyFeaturesGeo "Tokyo Tower" rfl,
   C4_geocode_failures_wrapped_runtimeError.2.1 status404Geo "Tokyo Tower" 404
     { features := [] } rfl (by decide),
   C4_geocode_failures_wrapped_runtimeError.2.2 transportFailGeo "Tokyo Tower"
     "connection refused" rfl⟩

/-- Claim C5: every Activity of every Day of a successfully built Itinerary has
a description of at least 50 characters (pydantic `min_length=50`, preserved by
coordinate enrichment), and a response whose description is shorter makes
`generate_itinerary` fail during validation, before any geocoding call. -/
theorem C5_built_itinerary_descriptions_min50 :
    (∀ (env : GenEnv) (dest : String) (dur : Int) (ints : List String) (info : String)
       (it : Itinerary), (generate_itinerary env dest dur ints info).1 = .ok it →
       ∀ d ∈ it.itinerary, ∀ a ∈ d.schedule, 50 ≤ a.description.length) ∧
    (generate_itinerary shortDescEnv "Japan" 1 ["food"] "").1 =
      .error (genWrap (.valueError "description: String should have at least 50 characters")) ∧
    (generate_itinerary shortDescEnv "Japan" 1 ["food"] "").2 = [] := by
  refine ⟨?_, rfl, rfl⟩
  intro env dest dur ints info it h d hd a ha
  unfold generate_itinerary at h
  repeat' split at h
  all_goals simp_all
  split at h
  · simp at h
  · simp at h
    subst h
    exact enrichDaysT_preserves_desc_min env.geo dest _ _ (by assumption)
      (validateItinerary_desc _ _ (by assumption)) d (by simpa using hd) a ha

/-- Witness for Claim C5: the concrete successful one-day build satisfies the
bound. -/
theorem C5_built_itinerary_descriptions_min50_witness :
    50 ≤ oneDayActivity.description.length :=
  C5_built_itinerary_descriptions_min50.1 oneDayEnv "Japan" 2 ["food", "history"] ""
    oneDayEnriched rfl oneDayDay (by decide) oneDayActivity (by decide)

set_option maxRecDepth 80000 in
/-- Claim C6: the digest of `process_search_and_summarize` is exactly the
newline-joined `- location: description` lines of the posts whose per-post
pipeline succeeded (a per-post failure is skipped, never aborting the batch);
on the five stub posts with two empty ones it has exactly the three successful
lines, and it is the empty string when no post yields a summary. -/
theorem C6_summarizer_skips_failed_posts :
    (∀ (search : String → List RedditPost) (llm : String → Except PyError String)
       (jparse : String → Except PyError Json) (location : String) (interests : List String),
       process_search_and_summarize search llm jparse location interests =
         String.intercalate "\n"
           (((search (construct_query location interests)).filterMap
               (perPostSummary llm jparse)).map
             (fun item => "- " ++ item.location ++ ": " ++ item.description))) ∧
    process_search_and_summarize stubSearch5 stubSumLlm stubJparse "Japan" ["food"] =
      "- Tsukiji: fish market\n- Kyoto: temples\n- Osaka: street food" ∧
    (stubSearch5 (construct_query "Japan" ["food"])).length = 5 ∧
    process_search_and_summarize stubSearch5 failSumLlm stubJparse "Japan" ["food"] = "" := by
  refine ⟨?_, rfl, rfl, rfl⟩
  intro search llm jparse location interests
  simp only [process_search_and_summarize]
  rw [processPosts_eq]
  simp

/-- Claim C7: when the model call inside `chat` fails, the method raises the
wrapped `RuntimeError` and the conversation state keeps the just-appended user
turn with no assistant turn appended (no rollback). -/
theorem C7_chat_failure_keeps_user_turn :
    ∀ (llm : List Message → Except PyError String) (bot : Chatbot) (m : String) (e : PyError),
      llm (bot.history ++ [{ role := "user", content := m }]) = .error e →
      Chatbot.chat llm bot m =
        (.error (.runtimeError ("Error in chatbot interaction: " ++ e.str)),
         { bot with history := bot.history ++ [{ role := "user", content := m }] }) := by
  intro llm bot m e h
  simp [Chatbot.chat, Chatbot.add_message, h]

/-- Witness for Claim C7 at a concrete failing model oracle. -/
theorem C7_chat_failure_keeps_user_turn_witness :
    Chatbot.chat chatFailLlm Chatbot.mk0 "hello" =
      (.error (.runtimeError ("Error in chatbot interaction: " ++
         (PyError.valueError "model offline").str)),
       { Chatbot.mk0 with history := Chatbot.mk0.history ++
           [{ role := "user", content := "hello" }] }) :=
  C7_chat_failure_keeps_user_turn chatFailLlm Chatbot.mk0 "hello"
    (.valueError "model offline") rfl

/-- Claim C8: on HTTP 200 with a non-empty features array, `geocode_location`
returns longitude = coordinates[0] and latitude = coordinates[1] of the first
feature. -/
theorem C8_geocode_success_first_feature_coords :
    ∀ (svc : GeoService) (name : String) (body : GeoBody) (f : Feature) (fs : List Feature)
      (lon lat : Rat) (rest : List Rat),
      svc name = .success 200 body → body.features = f :: fs →
      f.geometry.coordinates = lon :: lat :: rest →
      geocode_location svc name = .ok { longitude := lon, latitude := lat } := by
  intro svc name body f fs lon lat rest h hf hc
  simp [geocode_location, h, hf, hc]

/-- Witness for Claim C8 at the concrete stub service. -/
theorem C8_geocode_success_first_feature_coords_witness :
    geocode_location stubGeo "Eiffel Tower Paris" = .ok { longitude := 135, latitude := 35 } :=
  C8_geocode_success_first_feature_coords stubGeo "Eiffel Tower Paris"
    { features := [{ geometry := { coordinates := [135, 35] } }] }
    { geometry := { coordinates := [135, 35] } } [] 135 35 [] rfl rfl rfl

/-- Claim C9: `extract_trip_details` leaves the conversation history (and the
whole chatbot state) unchanged, whether it succeeds or fails. -/
theorem C9_extract_preserves_history :
    ∀ (llm : String → Except PyError Json) (bot : Chatbot),
      (Chatbot.extract_trip_details llm bot).2 = bot := by
  intro llm bot
  unfold Chatbot.extract_trip_details
  cases hf : pyFormat
      [("conversation", String.intercalate "\n" (bot.history.map (fun m => m.content)))]
      extractPromptTemplate with
  | error e => rfl
  | ok fp =>
    simp only [hf]
    cases hl : llm fp with
    | error e => rfl
    | ok j =>
      simp only [hl]
      cases hv : validateTripDetails j with
      | error e => rfl
      | ok td => rfl

/-- Claim C10: coordinate enrichment is all-or-nothing.  (1) Every itinerary
`generate_itinerary` returns has, on every activity of every day, coordinates
equal to the geocoding result for `location_name ++ " " ++ destination`；
(2) if the body validates but geocoding fails for some activity of the
validated itinerary, the whole call raises and no itinerary is returned. -/
theorem C10_enrichment_all_or_nothing :
    (∀ (env : GenEnv) (dest : String) (dur : Int) (ints : List String) (info : String)
       (it : Itinerary), (generate_itinerary env dest dur ints info).1 = .ok it →
       ∀ d ∈ it.itinerary, ∀ a ∈ d.schedule,
         ∃ c, geocode_location env.geo (a.location_name ++ " " ++ dest) = .ok c ∧
           a.longitude = some c.longitude ∧ a.latitude = some c.latitude) ∧
    (∀ (env : GenEnv) (dest : String) (dur : Int) (ints : List String) (info : String)
       (j : Json) (itin : Itinerary) (d : Day) (a : Activity) (e : PyError),
       env.pull = .ok () → env.llm = .ok j → validateItinerary j = .ok itin →
       d ∈ itin.itinerary → a ∈ d.schedule →
       geocode_location env.geo (a.location_name ++ " " ++ dest) = .error e →
       ∃ e2, (generate_itinerary env dest dur ints info).1 = .error e2) := by
  constructor
  · intro env dest dur ints info it h d hd a ha
    unfold generate_itinerary at h
    repeat' split at h
    all_goals simp_all
    split at h
    · simp at h
    · simp at h
      subst h
      exact enrichDaysT_ok_mem env.geo dest _ _ (by assumption) d (by simpa using hd) a ha
  · intro env dest dur ints info j itin d a e hpull hllm hval hd ha hg
    obtain ⟨e2, he2⟩ := enrichDaysT_error_of_mem env.geo dest itin.itinerary d a e hd ha hg
    refine ⟨genWrap e2, ?_⟩
    simp [generate_itinerary, hpull, hllm, hval, he2]

set_option maxRecDepth 8192 in
/-- Witness for Claim C10: the successful one-day build has its coordinates
set, and the same build against a zero-match geocoder fails as a whole. -/
theorem C10_enrichment_all_or_nothing_witness :
    oneDayActivity.longitude.isSome = true ∧
    isOkResult (generate_itinerary geoFailEnv "Japan" 2 ["food"] "").1 = false := by
  constructor
  · obtain ⟨c, hc, hlon, hlat⟩ := C10_enrichment_all_or_nothing.1 oneDayEnv "Japan" 2
      ["food", "history"] "" oneDayEnriched rfl oneDayDay (by decide) oneDayActivity (by decide)
    rw [hlon]
    rfl
  · obtain ⟨e2, he2⟩ := C10_enrichment_all_or_nothing.2 geoFailEnv "Japan" 2 ["food"] ""
      validOneDayJson oneDayParsed oneDayParsedDay oneDayParsedActivity
      (.runtimeError "Error during geocoding: No geocoding results found for Tsukiji Outer Market Japan")
      rfl rfl rfl (by decide) (by decide) (by rfl)
    rw [he2]
    rfl
